import Mathlib

/-!
Shallow embedding of the `bilby_tutorial.ipynb` notebook.

Numeric values are modelled as rationals; the external numpy callees
`np.sqrt`, `np.log` and the constant `np.pi` are abstract parameters,
since the notebook only composes them.
-/

/-- Python `def line(x, a, c): return (a * x) + c` from the notebook. -/
def line (x a c : ℚ) : ℚ := (a * x) + c

/-- Python `def quadratic(x, a, b, c): return (a * x**2) + (b * x) + c` from the notebook. -/
def quadratic (x a b c : ℚ) : ℚ := (a * x ^ 2) + (b * x) + c

/-- Numpy `np.linspace(lo, hi, n)`: `n` evenly spaced points from `lo` to `hi` inclusive. -/
def linspace (lo hi : ℚ) (n : ℕ) : List ℚ :=
  (List.range n).map (fun i => lo + (hi - lo) * i / (n - 1))

/-- The array `x = np.linspace(-10, 10, n)` with `n = 10` from the fake-data cell. -/
def xData : List ℚ := linspace (-10) 10 10

/-- The array `y = line(x, 0.5, 1)` from the fake-data cell (numpy broadcasts `line` pointwise). -/
def yTrue : List ℚ := xData.map (fun xi => line xi (1/2) 1)

/-- The array `data = y + noise` from the fake-data cell; the drawn `noise` array is an
external random input, so it is a parameter here. -/
def mkData (noise : List ℚ) : List ℚ := yTrue.zipWith (fun yi ni => yi + ni) noise

/-- Python dict lookup `d[k]`: the stored value, or a `KeyError` carrying the
missing key, modelled as `Except.error k`. -/
def dictGet (d : List (String × ℚ)) (k : String) : Except String ℚ :=
  match d.find? (fun p => p.1 == k) with
  | some p => Except.ok p.2
  | none => Except.error k

/-- The notebook's `CustomGaussianLikelihood` instance state.  `__init__` sets
`x`, `y`, `y_err`, `func` and `parameters`; the attributes `sigma`, `model`
and `residual` are only assigned inside `log_likelihood`, hence `Option`. -/
structure CustomGaussianLikelihood where
  x : List ℚ
  y : List ℚ
  y_err : List ℚ
  func : ℚ → ℚ → ℚ → ℚ
  parameters : List (String × ℚ)
  sigma : Option (List ℚ)
  model : Option (List ℚ)
  residual : Option (List ℚ)

/-- The constructor `CustomGaussianLikelihood.__init__`. -/
def CustomGaussianLikelihood.init (x y y_err : List ℚ) (func : ℚ → ℚ → ℚ → ℚ)
    (parameters : List (String × ℚ)) : CustomGaussianLikelihood :=
  ⟨x, y, y_err, func, parameters, none, none, none⟩

/-- The method `CustomGaussianLikelihood.log_likelihood`, state-passing: it returns the
`ln_like` value together with the mutated instance, or propagates a
`KeyError` from a `self.parameters[...]` lookup.  The numpy callees `np.sqrt`
and `np.log` and the constant `np.pi` are abstract parameters; numpy
arithmetic on arrays is pointwise on lists. -/
def CustomGaussianLikelihood.log_likelihood (sqrt logf : ℚ → ℚ) (pi : ℚ)
    (self : CustomGaussianLikelihood) : Except String (ℚ × CustomGaussianLikelihood) := do
  let sigmaQ ← dictGet self.parameters "sigma"
  let sigma := self.y_err.map (fun e => sqrt (e ^ 2 + sigmaQ ^ 2))
  let a ← dictGet self.parameters "a"
  let c ← dictGet self.parameters "c"
  let model := self.x.map (fun xi => self.func xi a c)
  let residual := (self.y.zip model).map (fun p => (p.1 - p.2) ^ 2)
  let ln_like := ((residual.zip sigma).map
      (fun p => -(p.1 / (2 * p.2 ^ 2)) - logf (2 * pi * p.2 ^ 2) / 2)).sum
  return (ln_like,
    ⟨self.x, self.y, self.y_err, self.func, self.parameters,
      some sigma, some model, some residual⟩)

/-- The claim's closed-form Gaussian log-likelihood: the sum over data points
of `-(y_i - func(x_i,a,c))^2 / (2*s_i^2) - ln(2*pi*s_i^2)/2` with per-point
variance `s_i^2 = y_err_i^2 + sigma^2` (stated with the abstract `np.log`). -/
def gaussianLogLikeClosedForm (logf : ℚ → ℚ) (pi : ℚ)
    (func : ℚ → ℚ → ℚ → ℚ) (x y y_err : List ℚ) (a c sigmaQ : ℚ) : ℚ :=
  ((x.zip (y.zip y_err)).map (fun t =>
      -((t.2.1 - func t.1 a c) ^ 2 / (2 * (t.2.2 ^ 2 + sigmaQ ^ 2)))
        - logf (2 * pi * (t.2.2 ^ 2 + sigmaQ ^ 2)) / 2)).sum

lemma logLike_sum_eq_closedForm (sqrt logf : ℚ → ℚ) (pi a c sigmaQ : ℚ)
    (func : ℚ → ℚ → ℚ → ℚ) :
    ∀ (xs ys es : List ℚ), xs.length = ys.length → ys.length = es.length →
    (∀ e ∈ es, sqrt (e ^ 2 + sigmaQ ^ 2) ^ 2 = e ^ 2 + sigmaQ ^ 2) →
    ((((ys.zip (xs.map fun xi => func xi a c)).map fun p => (p.1 - p.2) ^ 2).zip
        (es.map fun e => sqrt (e ^ 2 + sigmaQ ^ 2))).map
        (fun p => -(p.1 / (2 * p.2 ^ 2)) - logf (2 * pi * p.2 ^ 2) / 2)).sum
      = gaussianLogLikeClosedForm logf pi func xs ys es a c sigmaQ := by
  intro xs
  induction xs with
  | nil =>
    intro ys es hxy hye hsq
    have hys : ys = [] := List.eq_nil_of_length_eq_zero hxy.symm
    subst hys
    simp [gaussianLogLikeClosedForm]
  | cons xh xt ih =>
    intro ys es hxy hye hsq
    cases ys with
    | nil => simp at hxy
    | cons yh yt =>
      cases es with
      | nil => simp at hye
      | cons eh et =>
        have hxy' : xt.length = yt.length := by simpa using hxy
        have hye' : yt.length = et.length := by simpa using hye
        have hsq' : ∀ e ∈ et, sqrt (e ^ 2 + sigmaQ ^ 2) ^ 2 = e ^ 2 + sigmaQ ^ 2 := by
          intro e he; exact hsq e (List.mem_cons_of_mem _ he)
        have hhead : sqrt (eh ^ 2 + sigmaQ ^ 2) ^ 2 = eh ^ 2 + sigmaQ ^ 2 :=
          hsq eh (List.mem_cons_self _ _)
        have := ih yt et hxy' hye' hsq'
        simp only [List.map_cons, List.zip_cons_cons, List.sum_cons,
          gaussianLogLikeClosedForm] at this ⊢
        rw [this, hhead]

lemma bindOk {α β : Type} (a : α) (f : α → Except String β) :
    (Except.ok a >>= f) = f a := rfl

lemma bindError {α β : Type} (e : String) (f : α → Except String β) :
    ((Except.error e : Except String α) >>= f) = Except.error e := rfl

lemma pureEq {α : Type} (a : α) : (pure a : Except String α) = Except.ok a := rfl

/-- C1: `line` is the pure mapping `a*x + c`; at the 10 linspace points with
`a = 0.5`, `c = 1.0` it returns `0.5*x + 1`. -/
theorem line_is_affine :
    (∀ x a c : ℚ, line x a c = a * x + c) ∧
    xData.map (fun xi => line xi (1/2) 1) = xData.map (fun xi => (1/2) * xi + 1) := by
  constructor
  · intro x a c; rfl
  · rfl

/-- C2: `quadratic` is the pure mapping `a*x^2 + b*x + c`. -/
theorem quadratic_is_quadratic :
    ∀ x a b c : ℚ, quadratic x a b c = a * x ^ 2 + b * x + c := by
  intro x a b c; rfl

/-- C9: the linear model is nested in the quadratic one:
`quadratic(x, 0, b, c) = line(x, b, c)`. -/
theorem quadratic_nests_line :
    ∀ x b c : ℚ, quadratic x 0 b c = line x b c := by
  intro x b c
  unfold quadratic line
  ring

/-- C3: with a parameters dictionary containing keys `"a"`, `"c"`, `"sigma"`,
`log_likelihood` returns the closed-form Gaussian log-likelihood
`sum_i [-(y_i - func(x_i,a,c))^2/(2*s_i^2) - ln(2*pi*s_i^2)/2]` with
per-point variance `s_i^2 = y_err_i^2 + sigma^2` (the hypothesis on `sqrt`
records that the abstract callee is a square root on the variances used). -/
theorem log_likelihood_closed_form (sqrt logf : ℚ → ℚ) (pi : ℚ)
    (self : CustomGaussianLikelihood) (a c sigmaQ : ℚ)
    (hs : dictGet self.parameters "sigma" = Except.ok sigmaQ)
    (ha : dictGet self.parameters "a" = Except.ok a)
    (hc : dictGet self.parameters "c" = Except.ok c)
    (hxy : self.x.length = self.y.length)
    (hye : self.y.length = self.y_err.length)
    (hsq : ∀ e ∈ self.y_err, sqrt (e ^ 2 + sigmaQ ^ 2) ^ 2 = e ^ 2 + sigmaQ ^ 2) :
    ∃ s', self.log_likelihood sqrt logf pi =
      Except.ok
        (gaussianLogLikeClosedForm logf pi self.func self.x self.y self.y_err a c sigmaQ,
          s') := by
  refine ⟨⟨self.x, self.y, self.y_err, self.func, self.parameters,
    some (self.y_err.map fun e => sqrt (e ^ 2 + sigmaQ ^ 2)),
    some (self.x.map fun xi => self.func xi a c),
    some ((self.y.zip (self.x.map fun xi => self.func xi a c)).map
      fun p => (p.1 - p.2) ^ 2)⟩, ?_⟩
  unfold CustomGaussianLikelihood.log_likelihood
  rw [hs, bindOk, ha, bindOk, hc, bindOk, pureEq,
    logLike_sum_eq_closedForm sqrt logf pi a c sigmaQ self.func self.x self.y self.y_err
      hxy hye hsq]

/-- Witness for C3 at a concrete one-point data set. -/
theorem log_likelihood_closed_form_witness :
    ∃ s', (CustomGaussianLikelihood.init [0] [0] [0] line
        [("a", 1), ("c", 0), ("sigma", 1)]).log_likelihood id (fun _ => 0) 3 =
      Except.ok
        (gaussianLogLikeClosedForm (fun _ => 0) 3 line [0] [0] [0] 1 0 1, s') :=
  log_likelihood_closed_form id (fun _ => 0) 3
    (CustomGaussianLikelihood.init [0] [0] [0] line [("a", 1), ("c", 0), ("sigma", 1)])
    1 0 1 rfl rfl rfl rfl rfl
    (by
      intro e he
      simp [CustomGaussianLikelihood.init] at he
      subst he
      norm_num)

/-- C10: a successful `log_likelihood` call overwrites the instance attributes
`sigma`, `model` and `residual` with the freshly computed arrays, leaves
`x`, `y`, `y_err`, `func` and `parameters` unchanged, and the repeated call
on the mutated instance returns the same result. -/
theorem log_likelihood_mutation (sqrt logf : ℚ → ℚ) (pi : ℚ)
    (self s' : CustomGaussianLikelihood) (v : ℚ)
    (h : self.log_likelihood sqrt logf pi = Except.ok (v, s')) :
    (∃ a c sigmaQ,
        dictGet self.parameters "a" = Except.ok a ∧
        dictGet self.parameters "c" = Except.ok c ∧
        dictGet self.parameters "sigma" = Except.ok sigmaQ ∧
        s'.sigma = some (self.y_err.map fun e => sqrt (e ^ 2 + sigmaQ ^ 2)) ∧
        s'.model = some (self.x.map fun xi => self.func xi a c) ∧
        s'.residual = some ((self.y.zip (self.x.map fun xi => self.func xi a c)).map
          fun p => (p.1 - p.2) ^ 2)) ∧
    s'.x = self.x ∧ s'.y = self.y ∧ s'.y_err = self.y_err ∧
    s'.func = self.func ∧ s'.parameters = self.parameters ∧
    s'.log_likelihood sqrt logf pi = Except.ok (v, s') := by
  unfold CustomGaussianLikelihood.log_likelihood at h
  rcases hS : dictGet self.parameters "sigma" with eS | sq
  · rw [hS, bindError] at h; exact Except.noConfusion h
  rw [hS, bindOk] at h
  rcases hA : dictGet self.parameters "a" with eA | a
  · rw [hA, bindError] at h; exact Except.noConfusion h
  rw [hA, bindOk] at h
  rcases hC : dictGet self.parameters "c" with eC | c
  · rw [hC, bindError] at h; exact Except.noConfusion h
  rw [hC, bindOk, pureEq] at h
  simp only [Except.ok.injEq, Prod.mk.injEq] at h
  obtain ⟨hv, hst⟩ := h
  subst hst
  subst hv
  refine ⟨⟨a, c, sq, rfl, rfl, rfl, rfl, rfl, rfl⟩, rfl, rfl, rfl, rfl, rfl, ?_⟩
  unfold CustomGaussianLikelihood.log_likelihood
  dsimp only
  rw [hS, bindOk, hA, bindOk, hC, bindOk, pureEq]

/-- Witness for C10: the repeated-call conclusion at a concrete instance. -/
theorem log_likelihood_mutation_witness :
    (⟨[], [], [], line, [("a", 1), ("c", 0), ("sigma", 0)],
        some [], some [], some []⟩ : CustomGaussianLikelihood).log_likelihood
        id (fun _ => 0) 3 =
      Except.ok (0,
        ⟨[], [], [], line, [("a", 1), ("c", 0), ("sigma", 0)],
          some [], some [], some []⟩) :=
  (log_likelihood_mutation id (fun _ => 0) 3
    (CustomGaussianLikelihood.init [] [] [] line [("a", 1), ("c", 0), ("sigma", 0)])
    ⟨[], [], [], line, [("a", 1), ("c", 0), ("sigma", 0)], some [], some [], some []⟩
    0 rfl).2.2.2.2.2.2

/-- C7: the notebook-defined `log_likelihood` neither catches nor transforms
errors: it succeeds exactly when every `self.parameters[...]` lookup it
invokes succeeds, and any error it returns is exactly the error raised by one
of those lookups. -/
theorem log_likelihood_error_propagation (sqrt logf : ℚ → ℚ) (pi : ℚ)
    (self : CustomGaussianLikelihood) :
    ((self.log_likelihood sqrt logf pi).isOk = true ↔
      ((dictGet self.parameters "sigma").isOk = true ∧
       (dictGet self.parameters "a").isOk = true ∧
       (dictGet self.parameters "c").isOk = true)) ∧
    ∀ e, self.log_likelihood sqrt logf pi = Except.error e →
      dictGet self.parameters "sigma" = Except.error e ∨
      dictGet self.parameters "a" = Except.error e ∨
      dictGet self.parameters "c" = Except.error e := by
  unfold CustomGaussianLikelihood.log_likelihood
  rcases hS : dictGet self.parameters "sigma" with eS | sq
  · rw [bindError]
    constructor
    · simp [Except.isOk, Except.toBool]
    · intro e he
      left
      have heq : eS = e := by injection he
      rw [heq]
  rw [bindOk]
  rcases hA : dictGet self.parameters "a" with eA | a
  · rw [bindError]
    constructor
    · simp [Except.isOk, Except.toBool]
    · intro e he
      right; left
      have heq : eA = e := by injection he
      rw [heq]
  rw [bindOk]
  rcases hC : dictGet self.parameters "c" with eC | c
  · rw [bindError]
    constructor
    · simp [Except.isOk, Except.toBool]
    · intro e he
      right; right
      have heq : eC = e := by injection he
      rw [heq]
  rw [bindOk, pureEq]
  constructor
  · simp [Except.isOk, Except.toBool]
  · intro e he
    exact Except.noConfusion he

/-- Witness for C7: a missing `"sigma"` key propagates as that `KeyError`. -/
theorem log_likelihood_error_propagation_witness :
    dictGet ([] : List (String × ℚ)) "sigma" = Except.error "sigma" ∨
    dictGet ([] : List (String × ℚ)) "a" = Except.error "sigma" ∨
    dictGet ([] : List (String × ℚ)) "c" = Except.error "sigma" :=
  (log_likelihood_error_propagation id (fun _ => 0) 3
    (CustomGaussianLikelihood.init [] [] [] line [])).2 "sigma" rfl

/-- `bilby.prior.Uniform(low, high, name)`: a uniform prior specification. -/
structure Uniform where
  minimum : ℚ
  maximum : ℚ
  name : String

/-- The `priors` dict of Example 1:
`priors["a"] = Uniform(0, 1, "a")`, `priors["c"] = Uniform(0, 4, "c")`. -/
def priorsEx1 : List (String × Uniform) :=
  [("a", ⟨0, 1, "a"⟩), ("c", ⟨0, 4, "c"⟩)]

/-- The `priors` dict of Example 2: `a`, `c` as before plus
`priors["sigma"] = Uniform(0, 1, "sigma")`. -/
def priorsEx2 : List (String × Uniform) :=
  [("a", ⟨0, 1, "a"⟩), ("c", ⟨0, 4, "c"⟩), ("sigma", ⟨0, 1, "sigma"⟩)]

/-- The `priors` dict of Example 3: `a`, `b`, `c` each `Uniform(-2, 2, ...)`. -/
def priorsEx3 : List (String × Uniform) :=
  [("a", ⟨-2, 2, "a"⟩), ("b", ⟨-2, 2, "b"⟩), ("c", ⟨-2, 2, "c"⟩)]

/-- The free parameters of the Example 1 likelihood: the arguments of
`def line(x, a, c)` after the independent variable `x`, which is what the
library's `GaussianLikelihood` samples for `func=line`. -/
def lineParamNames : List String := ["a", "c"]

/-- The free parameters of the Example 3 likelihood: the arguments of
`def quadratic(x, a, b, c)` after `x`, for `func=quadratic`. -/
def quadraticParamNames : List String := ["a", "b", "c"]

/-- The free parameters of the Example 2 likelihood: the keys of
`parameters = dict(a=None, c=None, sigma=None)`. -/
def customParamNames : List String := ["a", "c", "sigma"]

/-- C5: every prior mapping in the notebook assigns each sampled parameter a
uniform prior with strictly increasing bounds, and its keys are exactly the
free parameters of the likelihood it is sampled with. -/
theorem priors_uniform_and_match_parameters :
    (∀ p ∈ priorsEx1, p.2.minimum < p.2.maximum) ∧
    (∀ p ∈ priorsEx2, p.2.minimum < p.2.maximum) ∧
    (∀ p ∈ priorsEx3, p.2.minimum < p.2.maximum) ∧
    priorsEx1.map Prod.fst = lineParamNames ∧
    priorsEx2.map Prod.fst = customParamNames ∧
    priorsEx3.map Prod.fst = quadraticParamNames := by
  refine ⟨?_, ?_, ?_, rfl, rfl, rfl⟩ <;>
    · intro p hp
      fin_cases hp <;> norm_num

/-- Witness for C5: the Example 1 prior on `a` has `0 < 1`. -/
theorem priors_uniform_and_match_parameters_witness :
    (("a", (⟨0, 1, "a"⟩ : Uniform)) : String × Uniform).2.minimum <
      (("a", (⟨0, 1, "a"⟩ : Uniform)) : String × Uniform).2.maximum :=
  priors_uniform_and_match_parameters.1 ("a", ⟨0, 1, "a"⟩) (by simp [priorsEx1])

/-- The assignment `lnBF = lnZ_line - lnZ_quad` from the model-selection cell. -/
def lnBF {α : Type} [Sub α] (lnZ_line lnZ_quad : α) : α := lnZ_line - lnZ_quad

/-- C4: the log Bayes factor is the difference of the two log-evidences, and
for positive evidences it is the log of the evidence ratio. -/
theorem lnBF_log_evidence_ratio :
    (∀ l q : ℝ, lnBF l q = l - q) ∧
    ∀ Z_line Z_quad : ℝ, 0 < Z_line → 0 < Z_quad →
      lnBF (Real.log Z_line) (Real.log Z_quad) = Real.log (Z_line / Z_quad) := by
  refine ⟨fun l q => rfl, ?_⟩
  intro Z1 Z2 h1 h2
  unfold lnBF
  rw [Real.log_div (ne_of_gt h1) (ne_of_gt h2)]

/-- Witness for C4 at the positive evidences `2` and `1`. -/
theorem lnBF_log_evidence_ratio_witness :
    lnBF (Real.log 2) (Real.log 1) = Real.log (2 / 1) :=
  lnBF_log_evidence_ratio.2 2 1 (by norm_num) (by norm_num)

/-- The library object `bilby.likelihood.GaussianLikelihood(x=..., y=..., func=..., sigma=...)`:
the library object records the data and model function it is handed. -/
structure GaussianLikelihood (F : Type) where
  x : List ℚ
  y : List ℚ
  func : F
  sigma : List ℚ

/-- Example 1: `GaussianLikelihood(x=x, y=data, func=line, sigma=y_errs)`;
the random draws `y_errs` and `noise` are external inputs. -/
def likelihoodEx1 (y_errs noise : List ℚ) : GaussianLikelihood (ℚ → ℚ → ℚ → ℚ) :=
  ⟨xData, mkData noise, line, y_errs⟩

/-- Example 2: `CustomGaussianLikelihood(x=x, y=y, y_err=y_errs, func=line,
parameters=parameters)` — note `y=y`, the noiseless model values. -/
def likelihoodEx2 (y_errs : List ℚ) (parameters : List (String × ℚ)) :
    CustomGaussianLikelihood :=
  CustomGaussianLikelihood.init xData yTrue y_errs line parameters

/-- Example 3: `GaussianLikelihood(x=x, y=data, func=quadratic, sigma=y_errs)`. -/
def likelihoodEx3 (y_errs noise : List ℚ) : GaussianLikelihood (ℚ → ℚ → ℚ → ℚ → ℚ) :=
  ⟨xData, mkData noise, quadratic, y_errs⟩

lemma zipWith_add_eq_self :
    ∀ (ys ns : List ℚ), ns.length = ys.length →
      ys.zipWith (fun yi ni => yi + ni) ns = ys → ns = List.replicate ys.length 0 := by
  intro ys
  induction ys with
  | nil =>
    intro ns h _
    simpa using List.eq_nil_of_length_eq_zero h
  | cons yh yt ih =>
    intro ns hlen heq
    cases ns with
    | nil => simp at hlen
    | cons nh nt =>
      simp only [List.zipWith_cons_cons, List.cons.injEq] at heq
      obtain ⟨h1, h2⟩ := heq
      have hnh : nh = 0 := by linarith
      have hlen' : nt.length = yt.length := by simpa using hlen
      have := ih nt hlen' h2
      simp [List.replicate, hnh, this]

lemma yTrue_length : yTrue.length = 10 := rfl

/-- C8: the Example 2 likelihood is built on the noiseless `y`, the Example 1
and 3 likelihoods on the noisy `data = y + noise`; whenever the drawn noise is
not identically zero those dependent-variable inputs differ. -/
theorem example2_uses_noiseless_y (y_errs y_errs2 noise : List ℚ)
    (parameters : List (String × ℚ))
    (hlen : noise.length = 10)
    (hnz : noise ≠ List.replicate 10 0) :
    (likelihoodEx2 y_errs2 parameters).y = yTrue ∧
    (likelihoodEx1 y_errs noise).y = mkData noise ∧
    (likelihoodEx3 y_errs noise).y = mkData noise ∧
    (likelihoodEx1 y_errs noise).y ≠ (likelihoodEx2 y_errs2 parameters).y ∧
    (likelihoodEx3 y_errs noise).y ≠ (likelihoodEx2 y_errs2 parameters).y := by
  have hne : mkData noise ≠ yTrue := by
    intro hEq
    apply hnz
    have := zipWith_add_eq_self yTrue noise (by rw [hlen, yTrue_length]) hEq
    rwa [yTrue_length] at this
  exact ⟨rfl, rfl, rfl, hne, hne⟩

/-- Witness for C8 at a concrete nonzero noise draw. -/
theorem example2_uses_noiseless_y_witness :
    (likelihoodEx2 [] []).y = yTrue ∧
    (likelihoodEx1 [] [1, 0, 0, 0, 0, 0, 0, 0, 0, 0]).y =
      mkData [1, 0, 0, 0, 0, 0, 0, 0, 0, 0] ∧
    (likelihoodEx3 [] [1, 0, 0, 0, 0, 0, 0, 0, 0, 0]).y =
      mkData [1, 0, 0, 0, 0, 0, 0, 0, 0, 0] ∧
    (likelihoodEx1 [] [1, 0, 0, 0, 0, 0, 0, 0, 0, 0]).y ≠ (likelihoodEx2 [] []).y ∧
    (likelihoodEx3 [] [1, 0, 0, 0, 0, 0, 0, 0, 0, 0]).y ≠ (likelihoodEx2 [] []).y :=
  example2_uses_noiseless_y [] [] [1, 0, 0, 0, 0, 0, 0, 0, 0, 0] [] rfl
    (by
      intro h
      have := congrArg (fun l => l.headI) h
      norm_num [List.replicate] at this)

/-- A `bilby` result object as the spec describes it: a tabular posterior
(columns = parameter names) and a scalar log-evidence. -/
structure BilbyResult where
  posterior : List (String × List ℚ)
  log_evidence : ℚ

/-- Modelled from the spec: the library's result persistence is not part of
this repository.  The filesystem is a mapping from paths to persisted result
objects. -/
abbrev Store : Type := List (String × BilbyResult)

/-- Modelled from the spec: path lookup treats a leading `./` as the current
working directory. -/
def normalizePath (p : String) : String :=
  match p.data with
  | '.' :: '/' :: rest => String.mk rest
  | _ => p

/-- Modelled from the spec: `bilby.run_sampler(..., label=..., outdir=...)`
returns its result object and persists it as JSON at
`outdir/label_result.json`. -/
def run_sampler (store : Store) (outdir label : String) (r : BilbyResult) :
    BilbyResult × Store :=
  (r, (outdir ++ "/" ++ label ++ "_result.json", r) :: store)

/-- Modelled from the spec: `bilby.result.read_in_result(path)` reads the
result persisted at the JSON `path`. -/
def read_in_result (store : Store) (path : String) : Option BilbyResult :=
  (store.find? (fun p => p.1 == normalizePath path)).map Prod.snd

/-- C6: reading `./output/line_test_result.json` back with the loader yields
the result returned by `run_sampler` with `label="line_test"`,
`outdir="output"`; in particular the reloaded log-evidence equals the
original one. -/
theorem read_in_result_round_trip (store : Store) (r : BilbyResult) :
    read_in_result (run_sampler store "output" "line_test" r).2
        "./output/line_test_result.json" =
      some (run_sampler store "output" "line_test" r).1 ∧
    (read_in_result (run_sampler store "output" "line_test" r).2
        "./output/line_test_result.json").map BilbyResult.log_evidence =
      some (run_sampler store "output" "line_test" r).1.log_evidence := by
  constructor <;> rfl
